import Mathlib

/-! Verification of the signal-to-trade decision pipeline of the CryptoSurferTrader
repository: sentiment aggregation (src/server/social_monitor.py), the trading
gate and position risk monitoring (src/server/python_service.py), on-chain
validation (src/signal_validator.py) and the staged trade-execution pipeline
(src/trade_executor.py).

Numeric values that Python represents as floats are modelled as exact
rationals; Python's round(x, d) (round-half-to-even at d decimal digits) is
modelled exactly on rationals.  Wall-clock timestamps are modelled as integer
minutes.  External I/O (HTTP providers, Redis, Twitter) is modelled as
explicit inputs / outputs of the corresponding functions.
-/

namespace CryptoSurfer

/-- Round a rational to the nearest integer, ties to even: the behaviour of
Python's built-in round on an exact value. -/
def rhe (q : ℚ) : ℤ :=
  let f := ⌊q⌋
  if q - f < 1/2 then f
  else if 1/2 < q - f then f + 1
  else if 2 ∣ f then f else f + 1

/-- Python round(x, d): round half-to-even at d decimal digits. -/
def roundDec (d : ℕ) (q : ℚ) : ℚ :=
  ((rhe (q * 10 ^ d) : ℤ) : ℚ) / 10 ^ d

namespace SocialMonitor

/-- A tracked mention of a token, as stored by
SocialSentimentMonitor.update_sentiment_score in src/server/social_monitor.py
(the engagement and followers fields of the stored dict are captured inside
the precomputed weight).  Timestamps are in minutes. -/
structure Mention where
  timestamp : ℤ
  sentiment : ℚ
  weight : ℚ
deriving DecidableEq

/-- SocialSentimentMonitor.calculate_engagement: likes + 2 * retweets + replies. -/
def calculate_engagement (likes retweets replies : ℕ) : ℕ :=
  likes + retweets * 2 + replies

/-- Weight of a mention in update_sentiment_score:
(followers / 1,000,000) + (engagement / 1,000). -/
def mentionWeight (followers engagement : ℕ) : ℚ :=
  (followers : ℚ) / 1000000 + (engagement : ℚ) / 1000

/-- SocialSentimentMonitor.analyze_sentiment.  TextBlob's polarity (a valence
in the interval from -1 to 1, an external library output) is an explicit
input; posHits and negHits are the numbers of positive / negative lexicon
keywords found in the text.  The source maps polarity to (polarity + 1) / 2,
then applies min 1 (s + 0.1) once per positive keyword and
max 0 (s - 0.1) once per negative keyword, in that order. -/
def analyze_sentiment (polarity : ℚ) (posHits negHits : ℕ) : ℚ :=
  (fun s => max 0 (s - 1/10))^[negHits]
    ((fun s => min 1 (s + 1/10))^[posHits] ((polarity + 1) / 2))

/-- SocialSentimentMonitor.update_sentiment_score for one token: append the
new mention (observed now), drop mentions strictly older than now - 30
minutes (the source keeps those with timestamp > cutoff), then, if the
remaining list is nonempty and its total weight is positive, recompute the
weighted sentiment and publish it.  Returns the new mention window and the
published score (none when nothing is published). -/
def update_sentiment_score (now : ℤ) (mentions : List Mention)
    (sentiment weight : ℚ) : List Mention × Option ℚ :=
  let window := (mentions ++ [Mention.mk now sentiment weight]).filter
    (fun m => decide (now - 30 < m.timestamp))
  if window.isEmpty then (window, none)
  else
    let totalWeightedSentiment := (window.map (fun m => m.sentiment * m.weight)).sum
    let totalWeight := (window.map (fun m => m.weight)).sum
    if 0 < totalWeight then (window, some (totalWeightedSentiment / totalWeight))
    else (window, none)

/-- The per-token mention windows of the monitor (sentiment_data), as an
association list from token symbol to its mention list. -/
def lookupMentions (st : List (String × List Mention)) (token : String) :
    List Mention :=
  (st.lookup token).getD []

/-- Store a token's updated mention window in the association list. -/
def setMentions (st : List (String × List Mention)) (token : String)
    (ms : List Mention) : List (String × List Mention) :=
  match st with
  | [] => [(token, ms)]
  | (t, old) :: rest =>
    if t = token then (t, ms) :: rest else (t, old) :: setMentions rest token ms

/-- A tweet as consumed by SocialSentimentMonitor.process_tweet.  The results
of the purely text-derived steps (regex token extraction and TextBlob
polarity / keyword scanning) are carried as fields. -/
structure TweetData where
  followers : ℕ
  likes : ℕ
  retweets : ℕ
  replies : ℕ
  tokens : List String
  polarity : ℚ
  posHits : ℕ
  negHits : ℕ
deriving DecidableEq

/-- SocialSentimentMonitor.process_tweet: tweets from accounts with fewer
than 50,000 followers are discarded before any token extraction; otherwise
each extracted token gets a mention appended and its score recomputed.
Returns the updated per-token state and the list of published
(token, score) records. -/
def process_tweet (now : ℤ) (t : TweetData)
    (st : List (String × List Mention)) :
    List (String × List Mention) × List (String × ℚ) :=
  if t.followers < 50000 then (st, [])
  else
    t.tokens.foldl
      (fun acc token =>
        let s := analyze_sentiment t.polarity t.posHits t.negHits
        let w := mentionWeight t.followers
          (calculate_engagement t.likes t.retweets t.replies)
        let step := update_sentiment_score now (lookupMentions acc.1 token) s w
        (setMentions acc.1 token step.1,
         match step.2 with
         | some q => acc.2 ++ [(token, q)]
         | none => acc.2))
      (st, [])

/-- SocialSentimentMonitor._check_trading_signal: publish a buy signal when
sentiment_score >= 0.8, mention_count >= 5 and market_cap <= $10,000,000;
the signal carries confidence = min(1.0, sentiment_score * (mention_count / 10)).
Returns the confidence of the published signal, or none. -/
def check_trading_signal (sentiment_score : ℚ) (mention_count : ℕ)
    (market_cap : ℚ) : Option ℚ :=
  if 8/10 ≤ sentiment_score ∧ 5 ≤ mention_count ∧ market_cap ≤ 10000000 then
    some (min 1 (sentiment_score * ((mention_count : ℚ) / 10)))
  else none

end SocialMonitor

/-- Leading-match test on character lists: the first list is an initial
segment of the second. -/
def charsLead : List Char → List Char → Bool
  | [], _ => true
  | _ :: _, [] => false
  | c :: cs, h :: hs => c == h && charsLead cs hs

/-- Substring test on character lists: the needle occurs contiguously
somewhere in the hay (an empty needle always occurs). -/
def charsSub : List Char → List Char → Bool
  | needle, [] => charsLead needle []
  | needle, h :: hs => charsLead needle (h :: hs) || charsSub needle hs

/-- Python's `needle in hay` on strings: contiguous substring containment. -/
def substrOf (needle hay : String) : Bool :=
  charsSub needle.data hay.data

namespace TradingService

/-- A position record as stored in the positions list by
TradingService in src/server/python_service.py.  statusOpen mirrors
status == open; pnl is the running profit-and-loss figure kept on the
record by the portfolio-update loop. -/
structure StoredPosition where
  symbol : String
  statusOpen : Bool
  size : ℚ
  entryPrice : ℚ
  currentPrice : ℚ
  pnl : ℚ
  stopLoss : ℚ
  takeProfit : ℚ
  exitReason : Option String
deriving DecidableEq

/-- The portfolio hash fields touched when a position closes. -/
structure Portfolio where
  availableBalance : ℚ
  marginUsed : ℚ
  realizedPnL : ℚ
deriving DecidableEq

/-- TradingService._check_trading_signal: a simulated trade is executed when
sentiment >= 0.8, mentions >= 5, market_cap <= $10,000,000, the token occurs
as a substring of no stored record (the source tests the Python containment
token in pos over each raw JSON record string fetched from the positions
list, open or closed alike), and the positions list holds fewer than 5
records (again open or closed alike).  The positions input is the list of
raw record strings exactly as the source reads it. -/
def check_trading_signal (sentiment : ℚ) (mentions : ℕ) (market_cap : ℚ)
    (positions : List String) (token : String) : Bool :=
  decide (8/10 ≤ sentiment) && decide (5 ≤ mentions) &&
  decide (market_cap ≤ 10000000) &&
  !(positions.any (fun pos => substrOf token pos)) &&
  decide (positions.length < 5)

/-- Stop-loss price stored by TradingService._execute_simulated_trade:
round(entry_price * 0.85, 6). -/
def stop_loss_price (entry_price : ℚ) : ℚ :=
  roundDec 6 (entry_price * (85/100))

/-- Take-profit price stored by TradingService._execute_simulated_trade:
round(entry_price * 1.30, 6). -/
def take_profit_price (entry_price : ℚ) : ℚ :=
  roundDec 6 (entry_price * (130/100))

/-- The position record created by TradingService._execute_simulated_trade:
a $100 long position at the given entry price, with 15 percent stop loss and
30 percent take profit, stored rounded as in the source. -/
def execute_simulated_trade (token : String) (entry_price : ℚ) :
    StoredPosition :=
  { symbol := token
    statusOpen := true
    size := roundDec 4 (100 / entry_price)
    entryPrice := roundDec 6 entry_price
    currentPrice := roundDec 6 entry_price
    pnl := 0
    stopLoss := stop_loss_price entry_price
    takeProfit := take_profit_price entry_price
    exitReason := none }

/-- TradingService._close_position: mark the position closed with the given
exit reason and book the trade into the portfolio (margin released with a
floor at zero, balance restored plus pnl, realized pnl incremented; the
source stores each figure rounded to 2 decimals). -/
def close_position (p : StoredPosition) (pf : Portfolio) (reason : String) :
    StoredPosition × Portfolio :=
  ({ p with statusOpen := false, exitReason := some reason },
   { availableBalance := roundDec 2 (pf.availableBalance + 100 + p.pnl)
     marginUsed := roundDec 2 (max 0 (pf.marginUsed - 100))
     realizedPnL := roundDec 2 (pf.realizedPnL + p.pnl) })

/-- One iteration of the loop body of TradingService._monitor_positions for a
single position: open positions are checked current <= stopLoss (close with
reason stop_loss), else current >= takeProfit (close with reason take_profit),
else a random 0.1 percent manual exit, modelled by the explicit manual flag;
positions not open are skipped entirely.  The third component lists the exit
reason of the closing trade pushed to the trade history, when one is. -/
def monitor_step (p : StoredPosition) (manual : Bool) (pf : Portfolio) :
    StoredPosition × Portfolio × List String :=
  if p.statusOpen then
    if p.currentPrice ≤ p.stopLoss then
      let c := close_position p pf "stop_loss"
      (c.1, c.2, ["stop_loss"])
    else if p.takeProfit ≤ p.currentPrice then
      let c := close_position p pf "take_profit"
      (c.1, c.2, ["take_profit"])
    else if manual then
      let c := close_position p pf "manual"
      (c.1, c.2, ["manual"])
    else (p, pf, [])
  else (p, pf, [])

/-- TradingService._monitor_positions over the whole positions list, threading
the portfolio and collecting the closing trades; the manuals list supplies
the per-position random manual-exit draws. -/
def monitor_positions : List StoredPosition → List Bool → Portfolio →
    List StoredPosition × Portfolio × List String
  | [], _, pf => ([], pf, [])
  | p :: ps, manuals, pf =>
    let step := monitor_step p (manuals.headD false) pf
    let rest := monitor_positions ps manuals.tail step.2.1
    (step.1 :: rest.1, rest.2.1, step.2.2 ++ rest.2.2)

end TradingService

/-- Modelled from the claim's words, for comparison with the code's gate: the
six-criteria admission predicate of claim C1 (weighted score >= 0.8, distinct
sources >= 5, market cap <= $10,000,000, validation tier not NONE, fewer than
5 OPEN positions, no OPEN position for the symbol).  The tier is the string
produced by OnChainSignalValidator.determine_validation_status, whose NONE
value is NO_VALIDATION. -/
def claimed_admission (score : ℚ) (sources : ℕ) (cap : ℚ) (tier : String)
    (positions : List TradingService.StoredPosition) (token : String) : Bool :=
  decide (8/10 ≤ score) && decide (5 ≤ sources) && decide (cap ≤ 10000000) &&
  !(tier == "NO_VALIDATION") &&
  decide ((positions.countP (fun p => p.statusOpen)) < 5) &&
  !(positions.any (fun p => p.statusOpen && p.symbol == token))

namespace SignalValidator

/-- Arithmetic mean of a list of transfer amounts (statistics.mean in
OnChainSignalValidator.analyze_whale_activity; only applied to nonempty
lists there). -/
def mean (l : List ℚ) : ℚ := l.sum / l.length

/-- Sample variance of the transfer amounts, the square of statistics.stdev
with the source's guard: std_dev is taken as 0 when fewer than two amounts
are present. -/
def sample_variance (l : List ℚ) : ℚ :=
  if 1 < l.length then
    ((l.map (fun a => (a - mean l) ^ 2)).sum) / ((l.length : ℚ) - 1)
  else 0

/-- Whale threshold of OnChainSignalValidator.analyze_whale_activity:
mean + 2 * standard deviation (the standard deviation being the square root
of sample_variance). -/
noncomputable def whale_threshold (l : List ℚ) : ℝ :=
  ((mean l : ℚ) : ℝ) + 2 * Real.sqrt ((sample_variance l : ℚ) : ℝ)

/-- Decidable form of the source's whale test amount > mean + 2 * stddev:
since the standard deviation is the nonnegative square root of
sample_variance, the test holds exactly when the amount exceeds the mean and
its squared excess exceeds 4 * sample_variance (theorem is_whale_iff below). -/
def is_whale (l : List ℚ) (a : ℚ) : Bool :=
  decide (mean l < a) && decide (4 * sample_variance l < (a - mean l) ^ 2)

/-- Whale count of OnChainSignalValidator.analyze_whale_activity: the number
of amounts exceeding the whale threshold. -/
def whale_count (l : List ℚ) : ℕ := l.countP (is_whale l)

/-- OnChainSignalValidator.analyze_whale_activity: (whale_threshold,
whale_count, average_transaction), with all three zero for an empty amounts
list. -/
noncomputable def analyze_whale_activity (amounts : List ℚ) : ℝ × ℕ × ℚ :=
  if amounts.isEmpty then (0, 0, 0)
  else (whale_threshold amounts, whale_count amounts, mean amounts)

/-- Token metadata extracted by OnChainSignalValidator.fetch_token_details. -/
structure TokenDetails where
  name : String
  symbol : String
  total_supply : String
  holders_count : ℕ
deriving DecidableEq

/-- One entry of the provider's token-transfers items list, classified by how
the source's per-entry access tx.get("contractAddress", ...).get("amount", ...)
followed by float(...) behaves on it: amount a when the amount field parses
to the number a; badAmount when the entry is a well-shaped object whose
amount field makes float(...) raise ValueError or TypeError (the source
catches these and skips the entry); badShape when the entry is not an object,
or its contractAddress field is not an object (a string, say), so the .get
attribute access raises AttributeError, which no handler in the source
catches. -/
inductive TxEntry where
  | amount (a : ℚ)
  | badAmount (raw : String)
  | badShape (raw : String)
deriving DecidableEq

/-- The provider's response to the token-transfers request: ok with the items
list when the request succeeds and the JSON body is an object; badBody when
the request succeeds but the body is not an object, so data.get(...) raises
AttributeError outside the RequestException handler; reqError when the
request itself fails (caught by the source). -/
inductive TxResponse where
  | ok (txs : List TxEntry)
  | badBody (raw : String)
  | reqError (msg : String)
deriving DecidableEq

/-- The provider's response to the token-details request, with the same three
shapes as TxResponse. -/
inductive DetailsResponse where
  | ok (d : TokenDetails)
  | badBody (raw : String)
  | reqError (msg : String)
deriving DecidableEq

/-- OnChainSignalValidator.fetch_token_details: a request error is caught and
degrades to the Unknown Token defaults, but a successful response whose JSON
body is not an object raises AttributeError at data.get(...), uncaught. -/
def fetch_token_details : DetailsResponse → Except String TokenDetails
  | .ok d => .ok d
  | .badBody raw => .error ("AttributeError: " ++ raw)
  | .reqError _ => .ok { name := "Unknown Token", symbol := "UNKNOWN",
                         total_supply := "0", holders_count := 0 }

/-- OnChainSignalValidator.fetch_recent_transactions: a request error is
caught and degrades to the empty transaction list, but a successful response
whose JSON body is not an object raises AttributeError at data.get(...),
uncaught. -/
def fetch_recent_transactions : TxResponse → Except String (List TxEntry)
  | .ok txs => .ok txs
  | .badBody raw => .error ("AttributeError: " ++ raw)
  | .reqError _ => .ok []

/-- OnChainSignalValidator.calculate_transaction_volume: iterate the
transfers in order accumulating amount * 0.001 (the placeholder USD price);
an entry whose amount fails numeric parsing is skipped by the
except (ValueError, TypeError) handler, but a malformed entry shape raises
AttributeError out of the loop. -/
def calculate_transaction_volume : List TxEntry → Except String ℚ
  | [] => Except.ok 0
  | TxEntry.amount a :: ts =>
    match calculate_transaction_volume ts with
    | Except.ok rest => Except.ok (a * (1/1000) + rest)
    | Except.error e => Except.error e
  | TxEntry.badAmount _ :: ts => calculate_transaction_volume ts
  | TxEntry.badShape raw :: _ => Except.error ("AttributeError: " ++ raw)

/-- The amount-extraction loop shared by the source's
identify_whale_transactions and analyze_whale_activity: parseable amounts are
collected in order, unparseable amounts are skipped by the
except (ValueError, TypeError) handler, and a malformed entry shape raises
AttributeError out of the loop. -/
def extract_amounts : List TxEntry → Except String (List ℚ)
  | [] => Except.ok []
  | TxEntry.amount a :: ts =>
    match extract_amounts ts with
    | Except.ok rest => Except.ok (a :: rest)
    | Except.error e => Except.error e
  | TxEntry.badAmount _ :: ts => extract_amounts ts
  | TxEntry.badShape raw :: _ => Except.error ("AttributeError: " ++ raw)

/-- OnChainSignalValidator.determine_validation_status, first match wins. -/
def determine_validation_status (tx_count : ℕ) (whales : ℕ) (volume : ℚ) :
    String :=
  if 30 < tx_count ∧ 2 < whales ∧ 1000 < volume then "STRONG_VALIDATION"
  else if 20 < tx_count ∧ 1 < whales ∧ 500 < volume then "MODERATE_VALIDATION"
  else if 10 < tx_count ∧ 100 < volume then "WEAK_VALIDATION"
  else "NO_VALIDATION"

/-- The assessment assembled by OnChainSignalValidator.validate_signal (the
rounded whale-threshold display field is covered by whale_threshold /
analyze_whale_activity above). -/
structure Assessment where
  token_name : String
  token_symbol : String
  total_holders : ℕ
  recent_volume_usd : ℚ
  transaction_count : ℕ
  whales : ℕ
  validation_status : String
deriving DecidableEq

/-- OnChainSignalValidator.validate_signal over explicit provider responses,
in the source's call order: fetch details, fetch transfers, compute the
volume, extract the amounts for the whale statistics, and classify.  Request
errors have been degraded inside the fetches, but an AttributeError raised by
any step propagates (the function has no handler), surfacing as an
Except.error result. -/
def validate_signal (detailsResp : DetailsResponse) (txResp : TxResponse) :
    Except String Assessment :=
  match fetch_token_details detailsResp with
  | Except.error e => Except.error e
  | Except.ok details =>
    match fetch_recent_transactions txResp with
    | Except.error e => Except.error e
    | Except.ok txs =>
      match calculate_transaction_volume txs with
      | Except.error e => Except.error e
      | Except.ok recent_volume =>
        match extract_amounts txs with
        | Except.error e => Except.error e
        | Except.ok amounts =>
          Except.ok
            { token_name := details.name
              token_symbol := details.symbol
              total_holders := details.holders_count
              recent_volume_usd := roundDec 2 recent_volume
              transaction_count := txs.length
              whales := whale_count amounts
              validation_status := determine_validation_status txs.length
                (whale_count amounts) recent_volume }

end SignalValidator

namespace TradeExecutor

/-- Outcome of one pipeline stage of RiskManagedTradeExecutor, abstracted to
its success flag and a payload (the provider data or error detail). -/
structure StageResult where
  success : Bool
  detail : String
deriving DecidableEq

/-- The result dict assembled by RiskManagedTradeExecutor.execute_trade;
a stage field is none exactly when that stage was never reached (the source
never populates the key). -/
structure ExecutionResult where
  status : String
  fee_estimation : Option StageResult
  simulation_result : Option StageResult
  preparation_result : Option StageResult
  signing_result : Option StageResult
  broadcast_result : Option StageResult
deriving DecidableEq

/-- RiskManagedTradeExecutor.execute_trade: the five checkpoints run in
order, each recording its result before its success flag is tested, and the
first failing stage short-circuits the pipeline with a stage-qualified
status.  The provider outcomes of the five stages are explicit inputs. -/
def execute_trade (fee sim prep sig bcast : StageResult) : ExecutionResult :=
  let r0 : ExecutionResult :=
    { status := "initialized", fee_estimation := none, simulation_result := none,
      preparation_result := none, signing_result := none, broadcast_result := none }
  let r1 := { r0 with fee_estimation := some fee }
  if !fee.success then { r1 with status := "failed_fee_estimation" }
  else
    let r2 := { r1 with simulation_result := some sim }
    if !sim.success then { r2 with status := "failed_simulation" }
    else
      let r3 := { r2 with preparation_result := some prep }
      if !prep.success then { r3 with status := "failed_preparation" }
      else
        let r4 := { r3 with signing_result := some sig }
        if !sig.success then { r4 with status := "failed_signing" }
        else
          let r5 := { r4 with broadcast_result := some bcast }
          if !bcast.success then { r5 with status := "failed_broadcast" }
          else { r5 with status := "success" }

end TradeExecutor

/-! Section: Helper lemmas -/

theorem rhe_sub_abs_le (q : ℚ) : |((rhe q : ℤ) : ℚ) - q| ≤ 1/2 := by
  have hfl : ((⌊q⌋ : ℤ) : ℚ) ≤ q := Int.floor_le q
  have hfu : q < ((⌊q⌋ : ℤ) : ℚ) + 1 := Int.lt_floor_add_one q
  unfold rhe
  by_cases h1 : q - ((⌊q⌋ : ℤ) : ℚ) < 1/2
  · simp only [h1, if_true]
    rw [abs_le]
    constructor <;> linarith
  · simp only [h1, if_false]
    by_cases h2 : (1:ℚ)/2 < q - ((⌊q⌋ : ℤ) : ℚ)
    · simp only [h2, if_true]
      rw [abs_le]
      push_cast
      constructor <;> linarith
    · simp only [h2, if_false]
      have heq : q - ((⌊q⌋ : ℤ) : ℚ) = 1/2 := le_antisymm (not_lt.1 h2) (not_lt.1 h1)
      by_cases h3 : 2 ∣ ⌊q⌋
      · simp only [h3, if_true]
        rw [abs_le]
        constructor <;> linarith
      · simp only [h3, if_false]
        rw [abs_le]
        push_cast
        constructor <;> linarith

theorem roundDec_sub_abs_le (d : ℕ) (q : ℚ) :
    |roundDec d q - q| ≤ 1 / (2 * 10 ^ d) := by
  have hpow : (0:ℚ) < 10 ^ d := by positivity
  have hkey : roundDec d q - q = (((rhe (q * 10 ^ d) : ℤ) : ℚ) - q * 10 ^ d) / 10 ^ d := by
    unfold roundDec
    field_simp
    ring
  rw [hkey, abs_div, abs_of_pos hpow]
  rw [div_le_div_iff₀ hpow (by positivity)]
  have := rhe_sub_abs_le (q * 10 ^ d)
  calc |((rhe (q * 10 ^ d) : ℤ) : ℚ) - q * 10 ^ d| * (2 * 10 ^ d)
      ≤ (1/2) * (2 * 10 ^ d) := by
        apply mul_le_mul_of_nonneg_right this (by positivity)
    _ = 1 * 10 ^ d := by ring

theorem rhe_intCast (n : ℤ) : rhe ((n : ℤ) : ℚ) = n := by
  unfold rhe
  rw [Int.floor_intCast]
  rw [if_pos (by norm_num)]

theorem roundDec_eq_of_mul_eq_intCast (d : ℕ) (q : ℚ) (n : ℤ)
    (h : q * 10 ^ d = ((n : ℤ) : ℚ)) : roundDec d q = q := by
  unfold roundDec
  rw [h, rhe_intCast, eq_comm, eq_div_iff (by positivity : ((10:ℚ) ^ d) ≠ 0)]
  exact h

/-! Section: Claim C3: validation-tier assignment -/

/-- Claim C3: the validation tier is a pure, deterministic function of
(transfer_count, whale_count, volume), evaluated first-match-wins: STRONG
when transfer_count > 30 and whale_count > 2 and volume > 1000; MODERATE when
transfer_count > 20 and whale_count > 1 and volume > 500; WEAK when
transfer_count > 10 and volume > 100; NONE otherwise; with (35, 3, 1500)
STRONG, (25, 2, 600) MODERATE, (15, 0, 150) WEAK and (5, 0, 50) NONE. -/
theorem C3_validation_tier :
    ∀ (t w : ℕ) (v : ℚ),
      (30 < t ∧ 2 < w ∧ 1000 < v →
        SignalValidator.determine_validation_status t w v = "STRONG_VALIDATION") ∧
      (¬(30 < t ∧ 2 < w ∧ 1000 < v) → 20 < t ∧ 1 < w ∧ 500 < v →
        SignalValidator.determine_validation_status t w v = "MODERATE_VALIDATION") ∧
      (¬(30 < t ∧ 2 < w ∧ 1000 < v) → ¬(20 < t ∧ 1 < w ∧ 500 < v) →
        10 < t ∧ 100 < v →
        SignalValidator.determine_validation_status t w v = "WEAK_VALIDATION") ∧
      (¬(30 < t ∧ 2 < w ∧ 1000 < v) → ¬(20 < t ∧ 1 < w ∧ 500 < v) →
        ¬(10 < t ∧ 100 < v) →
        SignalValidator.determine_validation_status t w v = "NO_VALIDATION") ∧
      SignalValidator.determine_validation_status 35 3 1500 = "STRONG_VALIDATION" ∧
      SignalValidator.determine_validation_status 25 2 600 = "MODERATE_VALIDATION" ∧
      SignalValidator.determine_validation_status 15 0 150 = "WEAK_VALIDATION" ∧
      SignalValidator.determine_validation_status 5 0 50 = "NO_VALIDATION" := by
  intro t w v
  refine ⟨?_, ?_, ?_, ?_, by decide, by decide, by decide, by decide⟩
  · intro h
    unfold SignalValidator.determine_validation_status
    rw [if_pos h]
  · intro h1 h2
    unfold SignalValidator.determine_validation_status
    rw [if_neg h1, if_pos h2]
  · intro h1 h2 h3
    unfold SignalValidator.determine_validation_status
    rw [if_neg h1, if_neg h2, if_pos h3]
  · intro h1 h2 h3
    unfold SignalValidator.determine_validation_status
    rw [if_neg h1, if_neg h2, if_neg h3]

/-- Witness for C3 at the concrete input (35, 3, 1500). -/
theorem C3_witness :
    SignalValidator.determine_validation_status 35 3 1500 = "STRONG_VALIDATION" :=
  (C3_validation_tier 35 3 1500).1 (by decide)

/-! Section: Claim C5: simulation failure short-circuits the pipeline -/

/-- Claim C5: when the Simulate stage returns failure (the pipeline having
reached it, i.e. fee estimation succeeded), the overall result has status
failed_simulation, the Prepare, Sign and Broadcast stage results are absent,
and the fee-estimation and simulation results are recorded. -/
theorem C5_failed_simulation :
    ∀ fee sim prep sig bcast : TradeExecutor.StageResult,
      fee.success = true → sim.success = false →
      TradeExecutor.execute_trade fee sim prep sig bcast =
        { status := "failed_simulation", fee_estimation := some fee,
          simulation_result := some sim, preparation_result := none,
          signing_result := none, broadcast_result := none } := by
  intro fee sim prep sig bcast hf hs
  simp [TradeExecutor.execute_trade, hf, hs]

/-- Witness for C5 at concrete stage outcomes. -/
theorem C5_witness :
    TradeExecutor.execute_trade ⟨true, "fee ok"⟩ ⟨false, "execution reverted"⟩
      ⟨true, ""⟩ ⟨true, ""⟩ ⟨true, ""⟩ =
      { status := "failed_simulation", fee_estimation := some ⟨true, "fee ok"⟩,
        simulation_result := some ⟨false, "execution reverted"⟩,
        preparation_result := none, signing_result := none,
        broadcast_result := none } :=
  C5_failed_simulation ⟨true, "fee ok"⟩ ⟨false, "execution reverted"⟩
    ⟨true, ""⟩ ⟨true, ""⟩ ⟨true, ""⟩ rfl rfl

/-! Section: Claim C10: low-follower tweets change no state -/

/-- Claim C10: a tweet whose author has fewer than 50,000 followers changes
no state: no mention is appended for any token, no score is recomputed and
nothing is published, regardless of text or engagement. -/
theorem C10_low_follower_noop :
    ∀ (now : ℤ) (t : SocialMonitor.TweetData)
      (st : List (String × List SocialMonitor.Mention)),
      t.followers < 50000 →
      SocialMonitor.process_tweet now t st = (st, []) := by
  intro now t st h
  simp [SocialMonitor.process_tweet, h]

/-- Witness for C10: a 49,999-follower tweet full of token mentions and
engagement leaves a nonempty state untouched. -/
theorem C10_witness :
    SocialMonitor.process_tweet 500
      ⟨49999, 50000, 25000, 10000, ["DOGE", "PEPE"], 1, 3, 0⟩
      [("DOGE", [⟨480, 1/2, 2⟩])] =
      ([("DOGE", [⟨480, 1/2, 2⟩])], []) :=
  C10_low_follower_noop 500
    ⟨49999, 50000, 25000, 10000, ["DOGE", "PEPE"], 1, 3, 0⟩
    [("DOGE", [⟨480, 1/2, 2⟩])] (by decide)

/-! Section: Claim C9: closing an already-closed position is a no-op -/

/-- Claim C9: a monitoring pass evaluates no exit triggers for a position
that is not open: the position record, the portfolio's realized P&L,
available balance and margin are all unchanged and no closing trade is
booked, both for the single-position step and within a pass over the whole
list, so realized P&L is never booked twice for the same position. -/
theorem C9_closed_position_noop :
    ∀ (p : TradingService.StoredPosition) (manual : Bool)
      (pf : TradingService.Portfolio)
      (ps : List TradingService.StoredPosition) (manuals : List Bool),
      p.statusOpen = false →
      TradingService.monitor_step p manual pf = (p, pf, []) ∧
      TradingService.monitor_positions (p :: ps) manuals pf =
        ((p :: (TradingService.monitor_positions ps manuals.tail pf).1,
          (TradingService.monitor_positions ps manuals.tail pf).2.1,
          (TradingService.monitor_positions ps manuals.tail pf).2.2)) := by
  intro p manual pf ps manuals h
  constructor
  · simp [TradingService.monitor_step, h]
  · simp [TradingService.monitor_positions, TradingService.monitor_step, h]

/-- Witness for C9: a closed DOGE position with booked pnl is skipped by a
monitoring pass and the portfolio is untouched. -/
theorem C9_witness :
    TradingService.monitor_step
      ⟨"DOGE", false, 1000, 1/10, 2/10, 100, 85/1000, 13/100, some "take_profit"⟩
      true ⟨10100, 0, 100⟩ =
      (⟨"DOGE", false, 1000, 1/10, 2/10, 100, 85/1000, 13/100, some "take_profit"⟩,
       ⟨10100, 0, 100⟩, []) :=
  (C9_closed_position_noop
    ⟨"DOGE", false, 1000, 1/10, 2/10, 100, 85/1000, 13/100, some "take_profit"⟩
    true ⟨10100, 0, 100⟩ [] [] (by decide)).1

/-! Section: Claim C1: trade admission criteria -/

/-- Counterexample to claim C1, over the raw stored JSON record strings the
source reads.  First conjunct pair: with every other criterion satisfied but
validation tier NONE (NO_VALIDATION), the code admits the trade while the
claimed six-criteria predicate rejects it - the code never consults the
validation tier.  Second conjunct pair: with 5 recorded positions that are
all CLOSED (0 of 5 open slots used) the code rejects the trade while the
claimed predicate admits it - the code counts recorded position entries, not
OPEN positions.  Third conjunct pair: the code's duplicate test is substring
containment of the token in the record string, so an OPEN BABYDOGE position
blocks a DOGE trade the claimed per-symbol predicate admits. -/
theorem C1_counterexample :
    (TradingService.check_trading_signal (85/100) 7 4000000
        ["\x7b\"symbol\": \"DOGE\", \"side\": \"BUY\", \"status\": \"open\", \"exchange\": \"DEX\"\x7d",
         "\x7b\"symbol\": \"SHIB\", \"side\": \"BUY\", \"status\": \"open\", \"exchange\": \"DEX\"\x7d"]
        "PEPE" = true ∧
      claimed_admission (85/100) 7 4000000 "NO_VALIDATION"
        ([⟨"DOGE", true, 1, 1, 1, 0, 1, 1, none⟩,
          ⟨"SHIB", true, 1, 1, 1, 0, 1, 1, none⟩] :
          List TradingService.StoredPosition) "PEPE" = false) ∧
    (TradingService.check_trading_signal (85/100) 7 4000000
        ["\x7b\"symbol\": \"DOGE\", \"status\": \"closed\"\x7d",
         "\x7b\"symbol\": \"SHIB\", \"status\": \"closed\"\x7d",
         "\x7b\"symbol\": \"FLOKI\", \"status\": \"closed\"\x7d",
         "\x7b\"symbol\": \"BONK\", \"status\": \"closed\"\x7d",
         "\x7b\"symbol\": \"WIF\", \"status\": \"closed\"\x7d"]
        "PEPE" = false ∧
      claimed_admission (85/100) 7 4000000 "STRONG_VALIDATION"
        ([⟨"DOGE", false, 1, 1, 1, 0, 1, 1, some "stop_loss"⟩,
          ⟨"SHIB", false, 1, 1, 1, 0, 1, 1, some "stop_loss"⟩,
          ⟨"FLOKI", false, 1, 1, 1, 0, 1, 1, some "stop_loss"⟩,
          ⟨"BONK", false, 1, 1, 1, 0, 1, 1, some "stop_loss"⟩,
          ⟨"WIF", false, 1, 1, 1, 0, 1, 1, some "stop_loss"⟩] :
          List TradingService.StoredPosition) "PEPE" = true) ∧
    (TradingService.check_trading_signal (85/100) 7 4000000
        ["\x7b\"symbol\": \"BABYDOGE\", \"side\": \"BUY\", \"status\": \"open\", \"exchange\": \"DEX\"\x7d"]
        "DOGE" = false ∧
      claimed_admission (85/100) 7 4000000 "STRONG_VALIDATION"
        ([⟨"BABYDOGE", true, 1, 1, 1, 0, 1, 1, none⟩] :
          List TradingService.StoredPosition) "DOGE" = true) := by
  refine ⟨⟨?_, ?_⟩, ⟨?_, ?_⟩, ?_, ?_⟩ <;>
    simp only [TradingService.check_trading_signal, claimed_admission,
      List.any_cons, List.any_nil, List.length_cons, List.length_nil,
      List.countP_cons, List.countP_nil] <;>
    norm_num <;> decide

/-- Claim C1 as amended: the trading-service gate admits a trade exactly when
sentiment >= 0.8, mentions >= 5, market cap <= $10,000,000, the token occurs
as a substring of no stored position record (open or closed alike - so a
recorded BABYDOGE position also blocks DOGE), and fewer than 5 position
records (open or closed) are stored - the validation tier is not consulted;
the sentiment monitor's published signal carries
confidence = min(1.0, score * (mentions / 10)), and the concrete scenario
(score 0.85, 7 sources, $4M cap, 2 recorded positions on other symbols)
is admitted with confidence 0.595. -/
theorem C1_admission :
    ∀ (s : ℚ) (m : ℕ) (c : ℚ) (ps : List String) (tok : String),
      (TradingService.check_trading_signal s m c ps tok = true ↔
        (8/10 ≤ s ∧ 5 ≤ m ∧ c ≤ 10000000 ∧
         (∀ rec ∈ ps, substrOf tok rec = false) ∧ ps.length < 5)) ∧
      (∀ q, SocialMonitor.check_trading_signal s m c = some q →
        q = min 1 (s * ((m : ℚ) / 10))) ∧
      SocialMonitor.check_trading_signal (85/100) 7 4000000 = some (119/200) ∧
      TradingService.check_trading_signal (85/100) 7 4000000
        ["\x7b\"symbol\": \"DOGE\", \"side\": \"BUY\", \"status\": \"open\", \"exchange\": \"DEX\"\x7d",
         "\x7b\"symbol\": \"SHIB\", \"side\": \"BUY\", \"status\": \"open\", \"exchange\": \"DEX\"\x7d"]
        "PEPE" = true := by
  intro s m c ps tok
  refine ⟨?_, ?_, ?_, ?_⟩
  · unfold TradingService.check_trading_signal
    simp [List.any_eq_true, and_assoc]
  · intro q hq
    unfold SocialMonitor.check_trading_signal at hq
    split at hq
    · exact (Option.some.inj hq).symm
    · exact absurd hq (by simp)
  · rw [SocialMonitor.check_trading_signal, if_pos (by norm_num)]
    norm_num
  · simp only [TradingService.check_trading_signal, List.any_cons, List.any_nil,
      List.length_cons, List.length_nil]
    norm_num
    decide

/-- Witness for C1 at the concrete scenario: the monitor's published
confidence for score 0.85 and 7 mentions is 0.595. -/
theorem C1_witness :
    (119/200 : ℚ) = min 1 ((85/100 : ℚ) * (((7 : ℕ) : ℚ) / 10)) :=
  (C1_admission (85/100) 7 4000000 [] "PEPE").2.1 (119/200)
    ((C1_admission (85/100) 7 4000000 [] "PEPE").2.2.1)

/-! Section: Claim C2: stop-loss / take-profit risk controls -/

/-- Counterexample to claim C2: the stored stop-loss price is
round(entry_price * 0.85, 6), not entry_price * 0.85 itself; at entry price
0.000123 the source stores 0.000105 while the exact product is 0.00010455. -/
theorem C2_counterexample :
    TradingService.stop_loss_price (123/1000000) ≠
      (123/1000000 : ℚ) * (85/100) := by
  have hq : (123/1000000 : ℚ) * (85/100) * 10 ^ 6 = 2091/20 := by norm_num
  have hfl : ⌊(2091/20 : ℚ)⌋ = 104 := by
    rw [Int.floor_eq_iff]
    norm_num
  have hrhe : rhe ((123/1000000 : ℚ) * (85/100) * 10 ^ 6) = 105 := by
    rw [hq]
    unfold rhe
    rw [hfl]
    rw [if_neg (by norm_num), if_pos (by norm_num)]
    norm_num
  unfold TradingService.stop_loss_price roundDec
  rw [hrhe]
  norm_num

/-- Claim C2 as amended: for every LONG position opened at entry price E the
stored stop-loss price is round(E * 0.85, 6) and the stored take-profit price
is round(E * 1.30, 6) - each within 5e-7 of the exact product, and exactly
the product when it has at most 6 decimal places, as at entry 100 where they
are 85 and 130; on a monitoring tick of an OPEN position a price at or below
the stop-loss closes it with reason stop_loss, otherwise a price at or above
the take-profit closes it with reason take_profit, and at most one exit
trigger fires per tick, stop-loss having priority. -/
theorem C2_risk_controls :
    ∀ (tok : String) (e : ℚ) (p : TradingService.StoredPosition)
      (manual : Bool) (pf : TradingService.Portfolio),
      (TradingService.execute_simulated_trade tok e).stopLoss =
        roundDec 6 (e * (85/100)) ∧
      (TradingService.execute_simulated_trade tok e).takeProfit =
        roundDec 6 (e * (130/100)) ∧
      |(TradingService.execute_simulated_trade tok e).stopLoss -
        e * (85/100)| ≤ 1/2000000 ∧
      |(TradingService.execute_simulated_trade tok e).takeProfit -
        e * (130/100)| ≤ 1/2000000 ∧
      (p.statusOpen = true → p.currentPrice ≤ p.stopLoss →
        (TradingService.monitor_step p manual pf).2.2 = ["stop_loss"] ∧
        (TradingService.monitor_step p manual pf).1.exitReason =
          some "stop_loss" ∧
        (TradingService.monitor_step p manual pf).1.statusOpen = false) ∧
      (p.statusOpen = true → ¬(p.currentPrice ≤ p.stopLoss) →
        p.takeProfit ≤ p.currentPrice →
        (TradingService.monitor_step p manual pf).2.2 = ["take_profit"] ∧
        (TradingService.monitor_step p manual pf).1.exitReason =
          some "take_profit" ∧
        (TradingService.monitor_step p manual pf).1.statusOpen = false) ∧
      (TradingService.monitor_step p manual pf).2.2.length ≤ 1 ∧
      TradingService.stop_loss_price 100 = 85 ∧
      TradingService.take_profit_price 100 = 130 := by
  intro tok e p manual pf
  refine ⟨rfl, rfl, ?_, ?_, ?_, ?_, ?_, ?_, ?_⟩
  · have h := roundDec_sub_abs_le 6 (e * (85/100))
    have h2 : (1:ℚ) / (2 * 10 ^ 6) = 1/2000000 := by norm_num
    rw [h2] at h
    exact h
  · have h := roundDec_sub_abs_le 6 (e * (130/100))
    have h2 : (1:ℚ) / (2 * 10 ^ 6) = 1/2000000 := by norm_num
    rw [h2] at h
    exact h
  · intro h1 h2
    simp [TradingService.monitor_step, TradingService.close_position, h1, h2]
  · intro h1 h2 h3
    simp [TradingService.monitor_step, TradingService.close_position, h1, h2, h3]
  · by_cases ho : p.statusOpen
    · by_cases hsl : p.currentPrice ≤ p.stopLoss
      · simp [TradingService.monitor_step, ho, hsl]
      · by_cases htp : p.takeProfit ≤ p.currentPrice
        · simp [TradingService.monitor_step, ho, hsl, htp]
        · by_cases hm : manual
          · simp [TradingService.monitor_step, ho, hsl, htp, hm]
          · simp [TradingService.monitor_step, ho, hsl, htp, hm]
    · simp [TradingService.monitor_step, ho]
  · have h : (100 : ℚ) * (85/100) = ((85 : ℤ) : ℚ) := by norm_num
    unfold TradingService.stop_loss_price
    rw [roundDec_eq_of_mul_eq_intCast 6 _ 85000000 (by rw [h]; norm_num), h]
    norm_num
  · have h : (100 : ℚ) * (130/100) = ((130 : ℤ) : ℚ) := by norm_num
    unfold TradingService.take_profit_price
    rw [roundDec_eq_of_mul_eq_intCast 6 _ 130000000 (by rw [h]; norm_num), h]
    norm_num

/-- Witness for C2: a LONG position entered at 100 (stop-loss 85, take-profit
130) closes with reason stop_loss on a tick of 84 and with reason take_profit
on a tick of 131. -/
theorem C2_witness :
    (TradingService.monitor_step
        ⟨"DOGE", true, 1, 100, 84, 0, 85, 130, none⟩ false ⟨10000, 0, 0⟩).2.2 =
      ["stop_loss"] ∧
    (TradingService.monitor_step
        ⟨"DOGE", true, 1, 100, 131, 0, 85, 130, none⟩ false ⟨10000, 0, 0⟩).2.2 =
      ["take_profit"] :=
  ⟨((C2_risk_controls "DOGE" 100
      ⟨"DOGE", true, 1, 100, 84, 0, 85, 130, none⟩ false
      ⟨10000, 0, 0⟩).2.2.2.2.1 rfl (by norm_num)).1,
   ((C2_risk_controls "DOGE" 100
      ⟨"DOGE", true, 1, 100, 131, 0, 85, 130, none⟩ false
      ⟨10000, 0, 0⟩).2.2.2.2.2.1 rfl (by norm_num) (by norm_num)).1⟩

/-! Section: Sentiment-window helper lemmas -/

theorem update_sentiment_score_eq (now : ℤ) (ms : List SocialMonitor.Mention)
    (s w : ℚ) :
    SocialMonitor.update_sentiment_score now ms s w =
      ((ms ++ [SocialMonitor.Mention.mk now s w]).filter
          (fun m => decide (now - 30 < m.timestamp)),
       if 0 < (((ms ++ [SocialMonitor.Mention.mk now s w]).filter
            (fun m => decide (now - 30 < m.timestamp))).map
              (fun m => m.weight)).sum
       then some ((((ms ++ [SocialMonitor.Mention.mk now s w]).filter
            (fun m => decide (now - 30 < m.timestamp))).map
              (fun m => m.sentiment * m.weight)).sum /
          (((ms ++ [SocialMonitor.Mention.mk now s w]).filter
            (fun m => decide (now - 30 < m.timestamp))).map
              (fun m => m.weight)).sum)
       else none) := by
  unfold SocialMonitor.update_sentiment_score
  set wnd := (ms ++ [SocialMonitor.Mention.mk now s w]).filter
    (fun m => decide (now - 30 < m.timestamp)) with hwnd
  by_cases hE : wnd.isEmpty
  · have h0 : wnd = [] := List.isEmpty_iff.mp hE
    rw [if_pos hE, h0]
    simp
  · rw [if_neg hE]
    show (if 0 < (wnd.map (fun m => m.weight)).sum
        then (wnd, some ((wnd.map (fun m => m.sentiment * m.weight)).sum /
          (wnd.map (fun m => m.weight)).sum))
        else (wnd, none)) =
      (wnd, if 0 < (wnd.map (fun m => m.weight)).sum
        then some ((wnd.map (fun m => m.sentiment * m.weight)).sum /
          (wnd.map (fun m => m.weight)).sum) else none)
    by_cases hT : 0 < (wnd.map (fun m => m.weight)).sum
    · rw [if_pos hT, if_pos hT]
    · rw [if_neg hT, if_neg hT]

theorem weighted_avg_bounds (l : List SocialMonitor.Mention)
    (h : ∀ m ∈ l, 0 ≤ m.sentiment ∧ m.sentiment ≤ 1 ∧ 0 ≤ m.weight)
    (hw : 0 < (l.map (fun m => m.weight)).sum) :
    0 ≤ (l.map (fun m => m.sentiment * m.weight)).sum /
        (l.map (fun m => m.weight)).sum ∧
      (l.map (fun m => m.sentiment * m.weight)).sum /
        (l.map (fun m => m.weight)).sum ≤ 1 := by
  have hnum : 0 ≤ (l.map (fun m => m.sentiment * m.weight)).sum := by
    apply List.sum_nonneg
    intro x hx
    obtain ⟨m, hm, rfl⟩ := List.mem_map.mp hx
    exact mul_nonneg (h m hm).1 (h m hm).2.2
  have hle : (l.map (fun m => m.sentiment * m.weight)).sum ≤
      (l.map (fun m => m.weight)).sum := by
    apply List.sum_le_sum
    intro m hm
    calc m.sentiment * m.weight ≤ 1 * m.weight :=
          mul_le_mul_of_nonneg_right (h m hm).2.1 (h m hm).2.2
      _ = m.weight := one_mul _
  exact ⟨div_nonneg hnum (le_of_lt hw), (div_le_one hw).mpr hle⟩

/-! Section: Claim C6: stale mentions never contribute -/

/-- Claim C6: on every ingest, mentions whose timestamp is at least 30
minutes before the current time are dropped before recomputation (the source
keeps only timestamps strictly inside the window), so such a mention
contributes nothing: the recomputation's entire result is the same as if the
stale mention had never been present, and every mention of the resulting
window is strictly within the trailing 30 minutes. -/
theorem C6_stale_mention_dropped :
    ∀ (now : ℤ) (pre post : List SocialMonitor.Mention)
      (m : SocialMonitor.Mention) (s w : ℚ),
      m.timestamp ≤ now - 30 →
      SocialMonitor.update_sentiment_score now (pre ++ m :: post) s w =
        SocialMonitor.update_sentiment_score now (pre ++ post) s w ∧
      ∀ m2 ∈ (SocialMonitor.update_sentiment_score now (pre ++ m :: post) s w).1,
        now - 30 < m2.timestamp := by
  intro now pre post m s w h
  have hm : (decide (now - 30 < m.timestamp)) = false :=
    decide_eq_false (not_lt.mpr h)
  have hfil : ((pre ++ m :: post) ++ [SocialMonitor.Mention.mk now s w]).filter
      (fun m => decide (now - 30 < m.timestamp)) =
      ((pre ++ post) ++ [SocialMonitor.Mention.mk now s w]).filter
      (fun m => decide (now - 30 < m.timestamp)) := by
    simp only [List.append_assoc, List.cons_append, List.filter_append,
      List.filter_cons, hm]
    simp
  constructor
  · rw [update_sentiment_score_eq, update_sentiment_score_eq, hfil]
  · intro m2 hm2
    rw [update_sentiment_score_eq] at hm2
    have := List.of_mem_filter hm2
    exact of_decide_eq_true this

/-- Witness for C6: a mention observed at minute 50 is gone from a
recomputation at minute 100 (the 30-minute cutoff being minute 70). -/
theorem C6_witness :
    SocialMonitor.update_sentiment_score 100 [⟨50, 1, 1⟩] (1/2) 1 =
      SocialMonitor.update_sentiment_score 100 [] (1/2) 1 :=
  (C6_stale_mention_dropped 100 [] [] ⟨50, 1, 1⟩ (1/2) 1 (by decide)).1

/-! Section: Claim C4: the weighted sentiment score -/

/-- Claim C4: for every ingest, whenever a score is published it equals the
weight-weighted average of per-mention sentiments over the mentions in the
window and lies in [0,1] (given per-mention sentiments in [0,1] and
nonnegative weights, which analyze_sentiment and the weight formula
guarantee: the last conjunct shows analyze_sentiment maps any TextBlob
polarity in [-1,1] into [0,1], and mentionWeight is nonnegative); and when
the total weight of the window is zero no score is computed or published. -/
theorem C4_weighted_score :
    ∀ (now : ℤ) (ms : List SocialMonitor.Mention) (s w : ℚ),
      (∀ m ∈ ms, 0 ≤ m.sentiment ∧ m.sentiment ≤ 1 ∧ 0 ≤ m.weight) →
      0 ≤ s → s ≤ 1 → 0 ≤ w →
      (∀ q, (SocialMonitor.update_sentiment_score now ms s w).2 = some q →
        q = ((SocialMonitor.update_sentiment_score now ms s w).1.map
              (fun m => m.sentiment * m.weight)).sum /
            ((SocialMonitor.update_sentiment_score now ms s w).1.map
              (fun m => m.weight)).sum ∧
        0 ≤ q ∧ q ≤ 1) ∧
      (((SocialMonitor.update_sentiment_score now ms s w).1.map
          (fun m => m.weight)).sum = 0 →
        (SocialMonitor.update_sentiment_score now ms s w).2 = none) ∧
      (∀ (followers engagement : ℕ),
        0 ≤ SocialMonitor.mentionWeight followers engagement) ∧
      (∀ (polarity : ℚ) (posHits negHits : ℕ), -1 ≤ polarity → polarity ≤ 1 →
        0 ≤ SocialMonitor.analyze_sentiment polarity posHits negHits ∧
          SocialMonitor.analyze_sentiment polarity posHits negHits ≤ 1) := by
  intro now ms s w hms hs0 hs1 hw0
  have hbounds : ∀ m2 ∈ (SocialMonitor.update_sentiment_score now ms s w).1,
      0 ≤ m2.sentiment ∧ m2.sentiment ≤ 1 ∧ 0 ≤ m2.weight := by
    intro m2 hm2
    rw [update_sentiment_score_eq] at hm2
    have hmem := List.mem_of_mem_filter hm2
    rcases List.mem_append.mp hmem with hin | hnew
    · exact hms m2 hin
    · rcases List.mem_singleton.mp hnew with rfl
      exact ⟨hs0, hs1, hw0⟩
  refine ⟨?_, ?_, ?_, ?_⟩
  · intro q hq
    rw [update_sentiment_score_eq] at hq
    rw [update_sentiment_score_eq]
    by_cases hpos : 0 < (((ms ++ [SocialMonitor.Mention.mk now s w]).filter
        (fun m => decide (now - 30 < m.timestamp))).map (fun m => m.weight)).sum
    · rw [if_pos hpos] at hq
      have hqe := (Option.some.inj hq).symm
      refine ⟨hqe, ?_⟩
      have hb := weighted_avg_bounds _ (by
        intro m2 hm2
        apply hbounds
        rw [update_sentiment_score_eq]
        exact hm2) hpos
      rw [hqe]
      exact hb
    · rw [if_neg hpos] at hq
      exact absurd hq (by simp)
  · intro hzero
    rw [update_sentiment_score_eq] at hzero
    rw [update_sentiment_score_eq]
    simp only at hzero ⊢
    rw [if_neg (by rw [hzero]; exact lt_irrefl 0)]
  · intro followers engagement
    unfold SocialMonitor.mentionWeight
    positivity
  · intro polarity posHits negHits hp1 hp2
    unfold SocialMonitor.analyze_sentiment
    have base : 0 ≤ (polarity + 1) / 2 ∧ (polarity + 1) / 2 ≤ 1 :=
      ⟨by linarith, by linarith⟩
    have up : ∀ (n : ℕ) (x : ℚ), 0 ≤ x → x ≤ 1 →
        0 ≤ (fun s => min 1 (s + 1/10))^[n] x ∧
          (fun s => min 1 (s + 1/10))^[n] x ≤ 1 := by
      intro n
      induction n with
      | zero => intro x h0 h1; exact ⟨h0, h1⟩
      | succ k ih =>
        intro x h0 h1
        rw [Function.iterate_succ_apply]
        exact ih _ (le_min (by norm_num) (by linarith)) (min_le_left _ _)
    have down : ∀ (n : ℕ) (x : ℚ), 0 ≤ x → x ≤ 1 →
        0 ≤ (fun s => max 0 (s - 1/10))^[n] x ∧
          (fun s => max 0 (s - 1/10))^[n] x ≤ 1 := by
      intro n
      induction n with
      | zero => intro x h0 h1; exact ⟨h0, h1⟩
      | succ k ih =>
        intro x h0 h1
        rw [Function.iterate_succ_apply]
        exact ih _ (le_max_left _ _) (max_le (by norm_num) (by linarith))
    exact down negHits _ (up posHits _ base.1 base.2).1 (up posHits _ base.1 base.2).2

/-- Witness for C4: one prior in-window mention of sentiment 1/2 and weight 1
plus an ingested mention of sentiment 1 and weight 1 publish the weighted
average 3/4, which lies in [0,1]. -/
theorem C4_witness :
    (3/4 : ℚ) =
      ((SocialMonitor.update_sentiment_score 100 [⟨80, 1/2, 1⟩] 1 1).1.map
        (fun m => m.sentiment * m.weight)).sum /
      ((SocialMonitor.update_sentiment_score 100 [⟨80, 1/2, 1⟩] 1 1).1.map
        (fun m => m.weight)).sum ∧
    (0:ℚ) ≤ 3/4 ∧ (3/4:ℚ) ≤ 1 :=
  (C4_weighted_score 100 [⟨80, 1/2, 1⟩] 1 1
      (by intro m hm; rw [List.mem_singleton.mp hm]; norm_num)
      (by norm_num) (by norm_num) (by norm_num)).1 (3/4)
    (by rw [update_sentiment_score_eq]; norm_num)

/-! Section: Whale-statistics helper lemmas -/

theorem sample_variance_nonneg (l : List ℚ) :
    0 ≤ SignalValidator.sample_variance l := by
  unfold SignalValidator.sample_variance
  split
  · apply div_nonneg
    · apply List.sum_nonneg
      intro x hx
      obtain ⟨a, _, rfl⟩ := List.mem_map.mp hx
      positivity
    · rename_i h
      have h1 : (1:ℚ) < (l.length : ℚ) := by exact_mod_cast h
      linarith
  · exact le_refl 0

theorem is_whale_iff (l : List ℚ) (a : ℚ) :
    SignalValidator.is_whale l a = true ↔
      SignalValidator.whale_threshold l < ((a : ℚ) : ℝ) := by
  unfold SignalValidator.is_whale SignalValidator.whale_threshold
  rw [Bool.and_eq_true, decide_eq_true_eq, decide_eq_true_eq]
  have hv : (0:ℝ) ≤ ((SignalValidator.sample_variance l : ℚ) : ℝ) := by
    exact_mod_cast sample_variance_nonneg l
  have h4 : Real.sqrt (4 * ((SignalValidator.sample_variance l : ℚ) : ℝ)) =
      2 * Real.sqrt ((SignalValidator.sample_variance l : ℚ) : ℝ) := by
    rw [show (4:ℝ) * ((SignalValidator.sample_variance l : ℚ) : ℝ) =
        (2:ℝ) ^ 2 * ((SignalValidator.sample_variance l : ℚ) : ℝ) by ring,
      Real.sqrt_mul (by positivity), Real.sqrt_sq (by norm_num)]
  constructor
  · rintro ⟨h1, h2⟩
    have h1R : ((SignalValidator.mean l : ℚ) : ℝ) < ((a : ℚ) : ℝ) := by
      exact_mod_cast h1
    have h2R : (4:ℝ) * ((SignalValidator.sample_variance l : ℚ) : ℝ) <
        (((a : ℚ) : ℝ) - ((SignalValidator.mean l : ℚ) : ℝ)) ^ 2 := by
      calc (4:ℝ) * ((SignalValidator.sample_variance l : ℚ) : ℝ)
          = (((4 * SignalValidator.sample_variance l : ℚ)) : ℝ) := by
            push_cast
            ring
        _ < ((((a - SignalValidator.mean l) ^ 2 : ℚ)) : ℝ) := by
            exact_mod_cast h2
        _ = (((a : ℚ) : ℝ) - ((SignalValidator.mean l : ℚ) : ℝ)) ^ 2 := by
            push_cast
            ring
    have hy : (0:ℝ) < ((a : ℚ) : ℝ) - ((SignalValidator.mean l : ℚ) : ℝ) := by
      linarith
    have hs := (Real.sqrt_lt' hy).mpr h2R
    rw [h4] at hs
    linarith
  · intro h
    have hsq : (0:ℝ) ≤ Real.sqrt ((SignalValidator.sample_variance l : ℚ) : ℝ) :=
      Real.sqrt_nonneg _
    have hy : (0:ℝ) < ((a : ℚ) : ℝ) - ((SignalValidator.mean l : ℚ) : ℝ) := by
      linarith
    have h1 : SignalValidator.mean l < a := by exact_mod_cast (by linarith :
      ((SignalValidator.mean l : ℚ) : ℝ) < ((a : ℚ) : ℝ))
    have hs : Real.sqrt (4 * ((SignalValidator.sample_variance l : ℚ) : ℝ)) <
        ((a : ℚ) : ℝ) - ((SignalValidator.mean l : ℚ) : ℝ) := by
      rw [h4]
      linarith
    have h2R := (Real.sqrt_lt' hy).mp hs
    refine ⟨h1, ?_⟩
    have : (4:ℚ) * SignalValidator.sample_variance l <
        ((a - SignalValidator.mean l : ℚ)) ^ 2 := by
      have hcast : ((((a - SignalValidator.mean l : ℚ)) ^ 2 : ℚ) : ℝ) =
          (((a : ℚ) : ℝ) - ((SignalValidator.mean l : ℚ) : ℝ)) ^ 2 := by
        push_cast
        ring
      exact_mod_cast hcast ▸ h2R
    exact this

/-! Section: Claim C7: whale threshold and whale count -/

/-- Claim C7: for an empty transfer list the threshold, count and average are
all zero; for a nonempty list, analyze_whale_activity returns the whale
threshold, the whale count and the mean, where the threshold exceeds the mean
by twice the sample standard deviation (the nonnegative number whose square
is the sample variance - taken as 0 when fewer than two amounts are present,
matching the source's stdev guard) and the whale count counts exactly the
amounts strictly exceeding the threshold. -/
theorem C7_whale_statistics :
    ∀ (l : List ℚ) (a : ℚ),
      SignalValidator.analyze_whale_activity [] = (0, 0, 0) ∧
      (l ≠ [] → SignalValidator.analyze_whale_activity l =
        (SignalValidator.whale_threshold l, SignalValidator.whale_count l,
         SignalValidator.mean l)) ∧
      0 ≤ SignalValidator.whale_threshold l -
        ((SignalValidator.mean l : ℚ) : ℝ) ∧
      ((SignalValidator.whale_threshold l -
        ((SignalValidator.mean l : ℚ) : ℝ)) / 2) ^ 2 =
        ((SignalValidator.sample_variance l : ℚ) : ℝ) ∧
      SignalValidator.whale_count l = l.countP (SignalValidator.is_whale l) ∧
      (SignalValidator.is_whale l a = true ↔
        SignalValidator.whale_threshold l < ((a : ℚ) : ℝ)) := by
  intro l a
  have hv : (0:ℝ) ≤ ((SignalValidator.sample_variance l : ℚ) : ℝ) := by
    exact_mod_cast sample_variance_nonneg l
  refine ⟨by simp [SignalValidator.analyze_whale_activity], ?_, ?_, ?_, rfl,
    is_whale_iff l a⟩
  · intro h
    simp [SignalValidator.analyze_whale_activity, h]
  · unfold SignalValidator.whale_threshold
    have := Real.sqrt_nonneg ((SignalValidator.sample_variance l : ℚ) : ℝ)
    linarith
  · have hdiff : (SignalValidator.whale_threshold l -
        ((SignalValidator.mean l : ℚ) : ℝ)) / 2 =
        Real.sqrt ((SignalValidator.sample_variance l : ℚ) : ℝ) := by
      unfold SignalValidator.whale_threshold
      ring
    rw [hdiff, Real.sq_sqrt hv]

/-- Witness for C7 at the amounts [0, 2, 4]: mean 2, sample variance 4. -/
theorem C7_witness :
    SignalValidator.analyze_whale_activity [0, 2, 4] =
      (SignalValidator.whale_threshold [0, 2, 4],
       SignalValidator.whale_count [0, 2, 4],
       SignalValidator.mean [0, 2, 4]) :=
  (C7_whale_statistics [0, 2, 4] 7).2.1 (by simp)

/-! Section: Claim C8: error handling of the on-chain validator -/

theorem calculate_volume_all_badAmount :
    ∀ txs : List SignalValidator.TxEntry,
      (∀ t ∈ txs, ∃ raw, t = SignalValidator.TxEntry.badAmount raw) →
      SignalValidator.calculate_transaction_volume txs = Except.ok 0 := by
  intro txs
  induction txs with
  | nil => intro _; rfl
  | cons t ts ih =>
    intro h
    obtain ⟨raw, rfl⟩ := h t (List.mem_cons_self t ts)
    show SignalValidator.calculate_transaction_volume ts = Except.ok 0
    exact ih (fun x hx => h x (List.mem_cons_of_mem _ hx))

theorem extract_amounts_all_badAmount :
    ∀ txs : List SignalValidator.TxEntry,
      (∀ t ∈ txs, ∃ raw, t = SignalValidator.TxEntry.badAmount raw) →
      SignalValidator.extract_amounts txs = Except.ok [] := by
  intro txs
  induction txs with
  | nil => intro _; rfl
  | cons t ts ih =>
    intro h
    obtain ⟨raw, rfl⟩ := h t (List.mem_cons_self t ts)
    show SignalValidator.extract_amounts ts = Except.ok []
    exact ih (fun x hx => h x (List.mem_cons_of_mem _ hx))

theorem calculate_volume_badShape :
    ∀ txs : List SignalValidator.TxEntry,
      (∃ raw, SignalValidator.TxEntry.badShape raw ∈ txs) →
      ∃ e, SignalValidator.calculate_transaction_volume txs =
        Except.error e := by
  intro txs
  induction txs with
  | nil =>
    rintro ⟨raw, hmem⟩
    exact absurd hmem (List.not_mem_nil _)
  | cons t ts ih =>
    rintro ⟨raw, hmem⟩
    rcases List.mem_cons.mp hmem with heq | hts
    · rw [← heq]
      exact ⟨"AttributeError: " ++ raw, rfl⟩
    · obtain ⟨e, he⟩ := ih ⟨raw, hts⟩
      cases t with
      | amount a =>
        refine ⟨e, ?_⟩
        show (match SignalValidator.calculate_transaction_volume ts with
          | Except.ok rest => Except.ok (a * (1/1000) + rest)
          | Except.error e2 => Except.error e2) = Except.error e
        rw [he]
      | badAmount s => exact ⟨e, he⟩
      | badShape s => exact ⟨"AttributeError: " ++ s, rfl⟩

/-- Counterexample to claim C8: malformed provider data is not always turned
into a NONE-tier assessment - a transfer item whose contractAddress field is
a string (not an object) makes tx.get(...).get(...) raise AttributeError,
which the except (ValueError, TypeError) handler does not catch, so
validate_signal propagates a hard failure to the caller. -/
theorem C8_counterexample :
    SignalValidator.validate_signal
      (SignalValidator.DetailsResponse.ok
        ⟨"Pepe", "PEPE", "420690000000000", 250000⟩)
      (SignalValidator.TxResponse.ok
        [SignalValidator.TxEntry.badShape "contractAddress is a string"]) =
      Except.error "AttributeError: contractAddress is a string" := by
  rfl

/-- Claim C8 as amended: when the request to the on-chain data provider
fails, the fetches degrade (Unknown Token defaults, empty transfer list) and
validate_signal returns a well-formed NONE-tier assessment; transfers whose
amount field fails numeric parsing are skipped, and when every transfer is
such, the assessment is again NONE-tier; but malformed payload shapes - a
response body that is not a JSON object, or a transfer entry that is not an
object or whose contractAddress field is not an object - raise an uncaught
AttributeError, and validate_signal propagates that hard failure to the
caller instead of degrading. -/
theorem C8_error_paths :
    ∀ (msgA msgB raw : String) (d : SignalValidator.TokenDetails)
      (dResp : SignalValidator.DetailsResponse)
      (txs : List SignalValidator.TxEntry),
      (SignalValidator.validate_signal
        (SignalValidator.DetailsResponse.reqError msgA)
        (SignalValidator.TxResponse.reqError msgB) =
        Except.ok { token_name := "Unknown Token", token_symbol := "UNKNOWN",
                    total_holders := 0, recent_volume_usd := 0,
                    transaction_count := 0, whales := 0,
                    validation_status := "NO_VALIDATION" }) ∧
      ((∀ t ∈ txs, ∃ s, t = SignalValidator.TxEntry.badAmount s) →
        SignalValidator.validate_signal (SignalValidator.DetailsResponse.ok d)
          (SignalValidator.TxResponse.ok txs) =
          Except.ok { token_name := d.name, token_symbol := d.symbol,
                      total_holders := d.holders_count, recent_volume_usd := 0,
                      transaction_count := txs.length, whales := 0,
                      validation_status := "NO_VALIDATION" }) ∧
      ((∃ s, SignalValidator.TxEntry.badShape s ∈ txs) →
        ∃ e, SignalValidator.validate_signal dResp
          (SignalValidator.TxResponse.ok txs) = Except.error e) ∧
      (SignalValidator.validate_signal (SignalValidator.DetailsResponse.ok d)
        (SignalValidator.TxResponse.badBody raw) =
        Except.error ("AttributeError: " ++ raw)) ∧
      (SignalValidator.validate_signal
        (SignalValidator.DetailsResponse.badBody raw)
        (SignalValidator.TxResponse.ok txs) =
        Except.error ("AttributeError: " ++ raw)) := by
  intro msgA msgB raw d dResp txs
  have hr0 : roundDec 2 0 = 0 := by
    unfold roundDec
    rw [show ((0:ℚ) * 10 ^ 2) = ((0:ℤ) : ℚ) by norm_num, rhe_intCast]
    norm_num
  have hdet : ∀ n : ℕ, SignalValidator.determine_validation_status n 0 0 =
      "NO_VALIDATION" := by
    intro n
    unfold SignalValidator.determine_validation_status
    rw [if_neg (by rintro ⟨h1, h2, h3⟩; exact absurd h2 (by norm_num)),
      if_neg (by rintro ⟨h1, h2, h3⟩; exact absurd h2 (by norm_num)),
      if_neg (by rintro ⟨h1, h3⟩; exact absurd h3 (by norm_num))]
  refine ⟨?_, ?_, ?_, rfl, rfl⟩
  · simp only [SignalValidator.validate_signal,
      SignalValidator.fetch_token_details,
      SignalValidator.fetch_recent_transactions,
      SignalValidator.calculate_transaction_volume,
      SignalValidator.extract_amounts, hr0]
    simp [SignalValidator.whale_count, hdet 0]
  · intro hall
    have hvol := calculate_volume_all_badAmount txs hall
    have hamt := extract_amounts_all_badAmount txs hall
    simp only [SignalValidator.validate_signal,
      SignalValidator.fetch_token_details,
      SignalValidator.fetch_recent_transactions, hvol, hamt, hr0]
    simp [SignalValidator.whale_count, hdet txs.length]
  · intro hbs
    cases hd : SignalValidator.fetch_token_details dResp with
    | error e =>
      exact ⟨e, by simp [SignalValidator.validate_signal, hd]⟩
    | ok details =>
      obtain ⟨e, he⟩ := calculate_volume_badShape txs hbs
      exact ⟨e, by
        simp [SignalValidator.validate_signal, hd,
          SignalValidator.fetch_recent_transactions, he]⟩

/-- Witness for C8: a transfers list holding one well-formed transfer and one
entry that is a bare value rather than an object makes validate_signal
return a hard error. -/
theorem C8_witness :
    ∃ e, SignalValidator.validate_signal
      (SignalValidator.DetailsResponse.ok
        ⟨"Pepe", "PEPE", "420690000000000", 250000⟩)
      (SignalValidator.TxResponse.ok
        [SignalValidator.TxEntry.amount 5,
         SignalValidator.TxEntry.badShape "transfer item is a list"]) =
      Except.error e :=
  (C8_error_paths "" "" ""
    ⟨"Pepe", "PEPE", "420690000000000", 250000⟩
    (SignalValidator.DetailsResponse.ok
      ⟨"Pepe", "PEPE", "420690000000000", 250000⟩)
    [SignalValidator.TxEntry.amount 5,
     SignalValidator.TxEntry.badShape "transfer item is a list"]).2.2.1
    ⟨"transfer item is a list", by simp⟩

end CryptoSurfer
